import Mathlib

/-!
Shallow embedding of the capnp_import build core (`build.rs`) and its
downstream consumer (`src/lib.rs`).

The build script `main` is modelled as a pure function from a `BuildEnv`
(the outcomes of its environment interactions: `$OUT_DIR`, `which`,
process spawning, the cmake toolchain, host OS, the `deny-net-fetch`
feature) to a trace of observable events plus a final result.  Paths are
modelled as strings, process stdout as a list of bytes (`List Nat` with
each entry < 256), and Rust's `String::from_utf8` as an executable UTF-8
decoder.
-/

namespace CapnpImport

/-- Host operating system, as decided by `cfg!(target_os = ...)` at the
compilation of the build script.  `freebsd` stands for any host outside
the three supported systems. -/
inductive HostOs
  | linux
  | macos
  | windows
  | freebsd
  deriving DecidableEq, Repr

/-- Constant `CAPNP_VERSION: &str = "0.11.0"` (build.rs line 15). -/
def CAPNP_VERSION : String := "0.11.0"

/-- Rust `enum CapnprotoAcquired` (build.rs lines 17-20): either a path
relative to the output directory (locally built) or an absolute system
path. -/
inductive CapnprotoAcquired
  | locally (p : String)
  | onSystem (p : String)
  deriving DecidableEq, Repr

/-- The `impl Display for CapnprotoAcquired` (build.rs lines 22-29): both
variants print their path verbatim. -/
def CapnprotoAcquired.display : CapnprotoAcquired → String
  | .locally p => p
  | .onSystem p => p

/-- Captured outcome of a spawned process, as Rust's
`Command::output()` returns it: raw stdout bytes and the exit status.
`build.rs` reads only `.stdout`. -/
structure ProcOutput where
  stdout : List Nat
  status : Int
  deriving DecidableEq, Repr

/-- Error cases of `get_version` (build.rs lines 123-126): `output()?`
fails when the process cannot be spawned, `String::from_utf8(...)?`
fails on invalid UTF-8. -/
inductive ProbeError
  | probeIoError
  | probeDecodeError
  deriving DecidableEq, Repr

/-- A UTF-8 continuation byte: `0x80..=0xBF`. -/
def isCont (b : Nat) : Bool := decide (0x80 ≤ b ∧ b ≤ 0xBF)

/-- Strict UTF-8 decoding of a byte list, as Rust's
`String::from_utf8` validates it: rejects overlong encodings,
surrogates and code points above `0x10FFFF`. -/
def utf8DecodeList : List Nat → Option (List Char)
  | [] => some []
  | b0 :: t0 =>
    if b0 ≤ 0x7F then
      (utf8DecodeList t0).map (fun cs => Char.ofNat b0 :: cs)
    else if b0 ≤ 0xC1 then none
    else if b0 ≤ 0xDF then
      match t0 with
      | b1 :: t1 =>
        if isCont b1 then
          (utf8DecodeList t1).map (fun cs =>
            Char.ofNat ((b0 - 0xC0) * 0x40 + (b1 - 0x80)) :: cs)
        else none
      | [] => none
    else if b0 ≤ 0xEF then
      match t0 with
      | b1 :: b2 :: t2 =>
        if ((if b0 = 0xE0 then decide (0xA0 ≤ b1 ∧ b1 ≤ 0xBF)
             else if b0 = 0xED then decide (0x80 ≤ b1 ∧ b1 ≤ 0x9F)
             else isCont b1) && isCont b2) then
          (utf8DecodeList t2).map (fun cs =>
            Char.ofNat (((b0 - 0xE0) * 0x40 + (b1 - 0x80)) * 0x40 + (b2 - 0x80)) :: cs)
        else none
      | _ => none
    else if b0 ≤ 0xF4 then
      match t0 with
      | b1 :: b2 :: b3 :: t3 =>
        if ((if b0 = 0xF0 then decide (0x90 ≤ b1 ∧ b1 ≤ 0xBF)
             else if b0 = 0xF4 then decide (0x80 ≤ b1 ∧ b1 ≤ 0x8F)
             else isCont b1) && isCont b2 && isCont b3) then
          (utf8DecodeList t3).map (fun cs =>
            Char.ofNat ((((b0 - 0xF0) * 0x40 + (b1 - 0x80)) * 0x40
              + (b2 - 0x80)) * 0x40 + (b3 - 0x80)) :: cs)
        else none
      | _ => none
    else none

/-- Rust's `String::from_utf8`: decode a byte list to a string, or fail. -/
def utf8Decode (bs : List Nat) : Option String :=
  (utf8DecodeList bs).map String.mk

/-- Function `get_version` (build.rs lines 123-126):
`String::from_utf8(Command::new(executable).arg("--version").output()?.stdout)?`.
The spawn outcome is `none` when the process could not be started.
Note the exit status of the process is never examined. -/
def get_version (spawn : Option ProcOutput) : Except ProbeError String :=
  match spawn with
  | none => .error .probeIoError
  | some out =>
    match utf8Decode out.stdout with
    | none => .error .probeDecodeError
    | some s => .ok s

/-- Unicode White_Space characters, the set Rust's `str::trim` removes
from both ends. -/
def isRustWhitespace (c : Char) : Bool :=
  [0x09, 0x0A, 0x0B, 0x0C, 0x0D, 0x20, 0x85, 0xA0, 0x1680,
   0x2000, 0x2001, 0x2002, 0x2003, 0x2004, 0x2005, 0x2006, 0x2007,
   0x2008, 0x2009, 0x200A, 0x2028, 0x2029, 0x202F, 0x205F, 0x3000].contains c.toNat

/-- Rust's `str::trim`: strip leading and trailing whitespace. -/
def rustTrim (s : String) : String :=
  String.mk (((s.data.dropWhile isRustWhitespace).reverse.dropWhile isRustWhitespace).reverse)

/-- The banner a system capnp must print:
`format!("Cap'n Proto version {}", CAPNP_VERSION)` (build.rs line 55). -/
def requiredBanner : String := "Cap'n Proto version " ++ CAPNP_VERSION

/-- Observable effects of the build script: lines printed to stdout
(including `cargo:` directives), the spawning of the cmake toolchain by
`cmake::Config::build`, and file writes by `fs::write`. -/
inductive Event
  | println (s : String)
  | cmakeBuild
  | fsWrite (path : String) (contents : String)
  deriving DecidableEq, Repr

/-- Terminal failures of the build script `main`: the `?` on
`env::var("OUT_DIR")`, the `bail!` under `deny-net-fetch`, a non-zero
exit of the cmake toolchain (panic inside `cmake::Config::build`), the
`assert_eq!(*out_dir, dst)` panic, the explicit `panic!` on an
unsupported OS, and the would-be panic of `capnp_path.unwrap()` on
`None`. -/
inductive MainError
  | missingOutDir
  | denyNetFetchAbort (msg : String)
  | builderFailure
  | installPrefixMismatch
  | panicked (msg : String)
  | unwrapNonePanic
  deriving DecidableEq, Repr

/-- The environment a run of the build script interacts with. -/
structure BuildEnv where
  /-- Value of `env::var("OUT_DIR")`: `none` when Cargo did not set it. -/
  outDirVar : Option String
  /-- Result of `which::which("capnp")`: the path found on `$PATH`, if any. -/
  whichCapnp : Option String
  /-- Outcome of spawning the found binary with `--version`: `none`
  when the process could not be started. -/
  spawn : Option ProcOutput
  /-- Whether `which::which("ninja").is_ok()`. -/
  ninja : Bool
  /-- Outcome of `cmake::Config::build()`: the install directory it
  returns, or `none` when the toolchain exited non-zero (a panic). -/
  cmakeResult : Option String
  /-- The `cfg!(target_os = ...)` facts baked into the build script. -/
  hostOs : HostOs
  /-- The `deny-net-fetch` cargo feature. -/
  denyNetFetch : Bool

/-- The closure at build.rs lines 47-64: find a system capnp, probe its
version, accept it iff the trimmed banner matches.  Returns the update
to `capnp_path`, the `anyhow::Result<PathBuf>` (errors as their
top-level display strings), and the printed lines. -/
def discovery (whichCapnp : Option String) (spawn : Option ProcOutput) :
    Option CapnprotoAcquired × Except String String × List Event :=
  match whichCapnp with
  | none => (none, .error "could not find a system capnp binary", [])
  | some bin =>
    match get_version spawn with
    | .error _ =>
      (none,
       .error "could not obtain version of found binary, system capnp may be inaccessible",
       [])
    | .ok version =>
      let found := Event.println ("found capnp '" ++ version ++ "'")
      if rustTrim version = requiredBanner then
        (some (.onSystem bin), .ok bin, [found])
      else
        (none, .error "version of system capnp does not meet version requirements",
         [found,
          .println ("cargo:warning=System version of capnp found (" ++ version
            ++ ") does not meet version requirement " ++ CAPNP_VERSION ++ ".")])

/-- Function `build_with_cmake` (build.rs lines 129-159): configure cmake on
the vendored `capnproto` tree (Ninja generator when available, `/EHsc`
on windows, `BUILD_TESTING=OFF`), run it, `assert_eq!(*out_dir, dst)`,
then pick the install-relative binary path by `cfg!(target_os)`; any
other OS hits the `panic!` when the function runs. -/
def build_with_cmake (env : BuildEnv) (out_dir : String) :
    List Event × Except MainError CapnprotoAcquired :=
  match env.cmakeResult with
  | none => ([.cmakeBuild], .error .builderFailure)
  | some dst =>
    if out_dir = dst then
      match env.hostOs with
      | .windows => ([.cmakeBuild], .ok (.locally "bin/capnp.exe"))
      | .linux => ([.cmakeBuild], .ok (.locally "bin/capnp"))
      | .macos => ([.cmakeBuild], .ok (.locally "bin/capnp"))
      | .freebsd =>
        ([.cmakeBuild],
         .error (.panicked "Sorry, capnp-import does not support your operating system."))
    else ([.cmakeBuild], .error .installPrefixMismatch)

/-- The rewrite `out_dir.to_string_lossy().replace('\\', "/")` (build.rs line 115). -/
def replaceBackslashes (s : String) : String :=
  String.mk (s.data.map (fun c => if c = '\\' then '/' else c))

/-- The path of the `include_bytes!` directive baked into the emitted
artifact: `"{}/{}"` of the normalized output directory and the
stringified acquired location (build.rs lines 93, 115-116). -/
def includePath (out_dir : String) (loc : CapnprotoAcquired) : String :=
  replaceBackslashes out_dir ++ "/" ++ loc.display

/-- The contents of the emitted artifact, the `format!` at build.rs
lines 84-117, verbatim (literal braces written as escapes). -/
def artifactContents (out_dir : String) (loc : CapnprotoAcquired) : String :=
  "\n#[allow(dead_code)]\nfn commandhandle() -> anyhow::Result<tempfile::TempDir> \x7b\n"
  ++ "    use std::io::Write;\n"
  ++ "    #[cfg(any(target_os = \"linux\", target_os = \"macos\"))]\n"
  ++ "    use std::os::unix::fs::OpenOptionsExt;\n"
  ++ "    use tempfile::tempdir;\n\n"
  ++ "    let file_contents = include_bytes!(\"" ++ includePath out_dir loc ++ "\");\n\n"
  ++ "    let tempdir = tempdir()?;\n\n"
  ++ "    #[cfg(any(target_os = \"linux\", target_os = \"macos\"))]\n"
  ++ "    let mut handle = \n"
  ++ "        std::fs::OpenOptions::new()\n"
  ++ "        .write(true)\n"
  ++ "        .mode(0o770)\n"
  ++ "        .create(true)\n"
  ++ "        .open(tempdir.path().join(\"capnp\"))?;\n\n"
  ++ "    #[cfg(target_os = \"windows\")]\n"
  ++ "    let mut handle = std::fs::OpenOptions::new().write(true).create(true).open(tempdir.path().join(\"capnp\"))?;\n\n"
  ++ "    #[cfg(not(any(target_os = \"linux\", target_os = \"macos\", target_os = \"windows\")))]\n"
  ++ "    compile_error!(\"capnp-import does not support your operating system!\");\n\n"
  ++ "    handle.write_all(file_contents)?;\n\n"
  ++ "    Ok(tempdir)\n\x7d"

/-- The emission step, build.rs lines 82-118: `capnp_path.unwrap()`
then `fs::write(out_dir.join("extract_bin.rs"), ...)`.  An unwrap of
`None` is modelled as the dedicated panic error. -/
def emitArtifact (evs : List Event) (out_dir : String)
    (capnp_path : Option CapnprotoAcquired) : List Event × Except MainError Unit :=
  match capnp_path with
  | none => (evs, .error .unwrapNonePanic)
  | some loc =>
    (evs ++ [.fsWrite (out_dir ++ "/extract_bin.rs") (artifactContents out_dir loc)],
     .ok ())

/-- Function `main` (build.rs lines 31-121) as a function of the environment:
print the rerun directive, read `$OUT_DIR`, attempt discovery; on
discovery failure either `bail!` (feature `deny-net-fetch`) or fall
back to `build_with_cmake`; finally write `extract_bin.rs`. -/
def mainModel (env : BuildEnv) : List Event × Except MainError Unit :=
  let ev0 : List Event := [.println "cargo:rerun-if-changed=capnproto"]
  match env.outDirVar with
  | none => (ev0, .error .missingOutDir)
  | some out_dir =>
    match discovery env.whichCapnp env.spawn with
    | (capnp_path, .ok _, dEv) => emitArtifact (ev0 ++ dEv) out_dir capnp_path
    | (_, .error e, dEv) =>
      if env.denyNetFetch then
        (ev0 ++ dEv,
         .error (.denyNetFetchAbort
           ("Couldn't find a local capnp: " ++ e ++ "\n refusing to build")))
      else
        let ev1 := ev0 ++ dEv
          ++ [.println ("Couldn't find a local capnp: " ++ e), .println "building..."]
        match build_with_cmake env out_dir with
        | (bEv, .error be) => (ev1 ++ bEv, .error be)
        | (bEv, .ok built_bin) => emitArtifact (ev1 ++ bEv) out_dir (some built_bin)

/-- Downstream consumer, `src/lib.rs` line 13:
`include!(concat!(env!("OUT_DIR"), "/binary_decision.rs"))`. -/
def downstreamIncludedFile (out_dir : String) : String :=
  out_dir ++ "/binary_decision.rs"

/-- The file the build script emits (build.rs line 83):
`out_dir.join("extract_bin.rs")`. -/
def emittedArtifactFile (out_dir : String) : String :=
  out_dir ++ "/extract_bin.rs"

/-- The file-write events of a trace, with their paths and contents. -/
def writeEvents (evs : List Event) : List (String × String) :=
  evs.filterMap (fun e => match e with | .fsWrite p c => some (p, c) | _ => none)

/-- The bytes of the exact required banner, as a probe would print it
without a trailing newline. -/
def bannerBytes : List Nat := "Cap'n Proto version 0.11.0".data.map Char.toNat

/-- The bytes of the required banner followed by a newline, the usual
shape of a `--version` stdout. -/
def bannerNlBytes : List Nat := "Cap'n Proto version 0.11.0\n".data.map Char.toNat

/-- Environment: `deny-net-fetch` on, no capnp on `$PATH`. -/
def envDenyNoCapnp : BuildEnv := ⟨some "/out", none, none, false, some "/out", .linux, true⟩

/-- Environment: linux host, no capnp on `$PATH`, cmake succeeds and
installs into `$OUT_DIR`. -/
def envLinuxLocalBuild : BuildEnv := ⟨some "/out", none, none, false, some "/out", .linux, false⟩

/-- Environment: unsupported (freebsd) host, no capnp on `$PATH`,
cmake succeeds and installs into `$OUT_DIR`. -/
def envFreebsdBuild : BuildEnv := ⟨some "/out", none, none, false, some "/out", .freebsd, false⟩

/-- Environment: windows host whose system capnp at a backslashed path
prints the exact required banner. -/
def envWinSystem : BuildEnv :=
  ⟨some "C:\\out", some "C:\\tools\\capnp.exe", some ⟨bannerBytes, 0⟩, false,
   some "C:\\out", .windows, false⟩

/-- Appending strings appends their character data. -/
theorem string_data_append (a b : String) : (a ++ b).data = a.data ++ b.data := rfl

/-- Discovery only reports success when it has recorded a system
location into `capnp_path`. -/
theorem discovery_ok_sets_path (w : Option String) (s : Option ProcOutput) (b : String)
    (h : (discovery w s).2.1 = .ok b) :
    (discovery w s).1 = some (.onSystem b) := by
  unfold discovery at *
  cases w with
  | none => simp at h
  | some bin =>
    cases hv : get_version s with
    | error e => simp [hv] at h
    | ok version =>
      simp only [hv] at h ⊢
      by_cases ht : rustTrim version = requiredBanner
      · simp [ht] at h ⊢
        exact h
      · simp [ht] at h

/-- Discovery spawns no cmake toolchain: its trace is println only. -/
theorem discovery_no_cmake (w : Option String) (s : Option ProcOutput) :
    Event.cmakeBuild ∉ (discovery w s).2.2 := by
  unfold discovery
  cases w with
  | none => simp
  | some bin =>
    cases get_version s with
    | error e => simp
    | ok version =>
      by_cases ht : rustTrim version = requiredBanner <;> simp [ht]

/-- Discovery writes no files. -/
theorem discovery_no_write (w : Option String) (s : Option ProcOutput) :
    writeEvents (discovery w s).2.2 = [] := by
  unfold discovery
  cases w with
  | none => simp [writeEvents]
  | some bin =>
    cases get_version s with
    | error e => simp [writeEvents]
    | ok version =>
      by_cases ht : rustTrim version = requiredBanner <;> simp [ht, writeEvents]

/-- The builder never fails with the unwrap panic: its error cases are
the toolchain failure, the install-prefix assertion, and the
unsupported-OS panic. -/
theorem build_no_unwrap_panic (env : BuildEnv) (out_dir : String) :
    (build_with_cmake env out_dir).2 ≠ .error .unwrapNonePanic := by
  unfold build_with_cmake
  cases env.cmakeResult with
  | none => simp
  | some dst =>
    by_cases hp : out_dir = dst
    · cases hOs : env.hostOs <;> simp [hp, hOs]
    · simp [hp]

/-- C2: with the `deny-net-fetch` feature set, a discovery failure
makes the build abort with a message quoting the discovery error, and
the cmake builder is never spawned. -/
theorem c2_deny_net_fetch_aborts_without_builder (env : BuildEnv) (out_dir e : String)
    (hOut : env.outDirVar = some out_dir)
    (hDeny : env.denyNetFetch = true)
    (hDisc : (discovery env.whichCapnp env.spawn).2.1 = .error e) :
    mainModel env
      = ([Event.println "cargo:rerun-if-changed=capnproto"]
           ++ (discovery env.whichCapnp env.spawn).2.2,
         .error (.denyNetFetchAbort
           ("Couldn't find a local capnp: " ++ e ++ "\n refusing to build")))
    ∧ Event.cmakeBuild ∉ (mainModel env).1 := by
  have hnc := discovery_no_cmake env.whichCapnp env.spawn
  rcases hd : discovery env.whichCapnp env.spawn with ⟨opt, res, evs⟩
  rw [hd] at hDisc hnc
  simp only at hDisc
  subst hDisc
  have hmain : mainModel env
      = ([Event.println "cargo:rerun-if-changed=capnproto"] ++ evs,
         .error (.denyNetFetchAbort
           ("Couldn't find a local capnp: " ++ e ++ "\n refusing to build"))) := by
    unfold mainModel
    rw [hOut, hd]
    simp [hDeny]
  refine ⟨by rw [hmain], ?_⟩
  rw [hmain]
  simp
  exact hnc

/-- Witness for C2: no capnp on the path, `deny-net-fetch` set. -/
theorem c2_witness :
    envDenyNoCapnp.outDirVar = some "/out"
    ∧ envDenyNoCapnp.denyNetFetch = true
    ∧ (discovery envDenyNoCapnp.whichCapnp envDenyNoCapnp.spawn).2.1
        = .error "could not find a system capnp binary"
    ∧ (mainModel envDenyNoCapnp
        = ([Event.println "cargo:rerun-if-changed=capnproto"]
             ++ (discovery envDenyNoCapnp.whichCapnp envDenyNoCapnp.spawn).2.2,
           .error (.denyNetFetchAbort
             ("Couldn't find a local capnp: " ++ "could not find a system capnp binary"
               ++ "\n refusing to build")))
       ∧ Event.cmakeBuild ∉ (mainModel envDenyNoCapnp).1) :=
  ⟨rfl, rfl, rfl,
   c2_deny_net_fetch_aborts_without_builder envDenyNoCapnp "/out"
     "could not find a system capnp binary" rfl rfl rfl⟩

/-- C9: every execution path of `main` that reaches the emission step
has `capnp_path` set, so the `capnp_path.unwrap()` at build.rs line 116
can never panic: no run of the model ends in the unwrap-on-`None`
panic. -/
theorem c9_unwrap_never_panics (env : BuildEnv) :
    (mainModel env).2 ≠ .error .unwrapNonePanic := by
  intro hcontra
  unfold mainModel at hcontra
  cases hOut : env.outDirVar with
  | none => rw [hOut] at hcontra; simp at hcontra
  | some out_dir =>
    rw [hOut] at hcontra
    rcases hd : discovery env.whichCapnp env.spawn with ⟨opt, res, evs⟩
    rw [hd] at hcontra
    cases res with
    | ok b =>
      have hopt := discovery_ok_sets_path env.whichCapnp env.spawn b (by rw [hd])
      rw [hd] at hopt
      simp only at hopt
      rw [hopt] at hcontra
      simp [emitArtifact] at hcontra
    | error e =>
      by_cases hdeny : env.denyNetFetch
      · simp [hdeny] at hcontra
      · simp only [hdeny, if_false, Bool.false_eq_true] at hcontra
        have hb := build_no_unwrap_panic env out_dir
        rcases hbc : build_with_cmake env out_dir with ⟨bEv, bres⟩
        rw [hbc] at hcontra hb
        cases bres with
        | error be =>
          simp only at hcontra hb
          simp at hcontra
          exact hb (by rw [hcontra])
        | ok loc => simp [emitArtifact] at hcontra

/-- C5: after a successful probe, discovery accepts the candidate (and
records the system location) exactly when the trimmed probe output
equals the required banner; on a mismatch it prints a `cargo:warning`
line naming both the observed output and the required version and
fails with the version-mismatch error. -/
theorem c5_discovery_banner_equality (bin : String) (spawn : Option ProcOutput)
    (version : String) (hv : get_version spawn = .ok version) :
    (((discovery (some bin) spawn).1 = some (.onSystem bin)
        ∧ (discovery (some bin) spawn).2.1 = .ok bin)
      ↔ rustTrim version = requiredBanner)
    ∧ (rustTrim version ≠ requiredBanner →
        (discovery (some bin) spawn).2.1
            = .error "version of system capnp does not meet version requirements"
        ∧ Event.println ("cargo:warning=System version of capnp found (" ++ version
            ++ ") does not meet version requirement " ++ CAPNP_VERSION ++ ".")
            ∈ (discovery (some bin) spawn).2.2) := by
  unfold discovery
  rw [hv]
  by_cases ht : rustTrim version = requiredBanner <;> simp [ht]

/-- Witness for C5: a probe printing the banner with a trailing newline
is accepted; a probe printing a different version is not. -/
theorem c5_witness :
    get_version (some ⟨bannerNlBytes, 0⟩) = .ok "Cap'n Proto version 0.11.0\n"
    ∧ ((((discovery (some "/usr/bin/capnp") (some ⟨bannerNlBytes, 0⟩)).1
          = some (.onSystem "/usr/bin/capnp")
        ∧ (discovery (some "/usr/bin/capnp") (some ⟨bannerNlBytes, 0⟩)).2.1
          = .ok "/usr/bin/capnp")
      ↔ rustTrim "Cap'n Proto version 0.11.0\n" = requiredBanner)
      ∧ (rustTrim "Cap'n Proto version 0.11.0\n" ≠ requiredBanner →
          (discovery (some "/usr/bin/capnp") (some ⟨bannerNlBytes, 0⟩)).2.1
              = .error "version of system capnp does not meet version requirements"
          ∧ Event.println ("cargo:warning=System version of capnp found ("
              ++ "Cap'n Proto version 0.11.0\n"
              ++ ") does not meet version requirement " ++ CAPNP_VERSION ++ ".")
              ∈ (discovery (some "/usr/bin/capnp") (some ⟨bannerNlBytes, 0⟩)).2.2)) :=
  ⟨rfl, c5_discovery_banner_equality "/usr/bin/capnp" (some ⟨bannerNlBytes, 0⟩)
    "Cap'n Proto version 0.11.0\n" rfl⟩

/-- C10: only the observed probe output is trimmed before the equality
check, so any output that equals the banner after trimming — e.g. with
a trailing newline — is accepted and yields the system location. -/
theorem c10_trimmed_output_accepted (bin : String) (spawn : Option ProcOutput)
    (version : String) (hv : get_version spawn = .ok version)
    (ht : rustTrim version = requiredBanner) :
    (discovery (some bin) spawn).1 = some (.onSystem bin)
    ∧ (discovery (some bin) spawn).2.1 = .ok bin := by
  unfold discovery
  rw [hv]
  simp [ht]

/-- Witness for C10: the banner with a trailing newline trims to the
required banner and is accepted. -/
theorem c10_witness :
    get_version (some ⟨bannerNlBytes, 1⟩) = .ok (requiredBanner ++ "\n")
    ∧ rustTrim (requiredBanner ++ "\n") = requiredBanner
    ∧ ((discovery (some "/opt/bin/capnp") (some ⟨bannerNlBytes, 1⟩)).1
        = some (.onSystem "/opt/bin/capnp")
      ∧ (discovery (some "/opt/bin/capnp") (some ⟨bannerNlBytes, 1⟩)).2.1
        = .ok "/opt/bin/capnp") :=
  ⟨rfl, by decide,
   c10_trimmed_output_accepted "/opt/bin/capnp" (some ⟨bannerNlBytes, 1⟩)
     (requiredBanner ++ "\n") rfl (by decide)⟩

/-- Counterexample to C4: a probe whose process exits with status 1
but prints valid UTF-8 (`"x"`) returns `Ok`, because `get_version`
reads only `.stdout` and never examines the exit status. -/
theorem c4_nonzero_exit_returns_ok :
    (1 : Int) ≠ 0 ∧ get_version (some ⟨[0x78], 1⟩) = .ok "x" :=
  ⟨by decide, rfl⟩

/-- C4 amended: the probe fails with the I/O error when the process
could not be spawned and with the decode error when stdout is not
valid UTF-8; the exit status plays no role, so any spawned process
with decodable stdout yields `Ok` regardless of status. -/
theorem c4_probe_error_taxonomy :
    get_version none = .error .probeIoError
    ∧ (∀ bs st, utf8Decode bs = none →
        get_version (some ⟨bs, st⟩) = .error .probeDecodeError)
    ∧ (∀ bs st s, utf8Decode bs = some s → get_version (some ⟨bs, st⟩) = .ok s) := by
  refine ⟨rfl, ?_, ?_⟩
  · intro bs st h
    simp [get_version, h]
  · intro bs st s h
    simp [get_version, h]

/-- Witness for C4 amended: an unspawnable process, an invalid UTF-8
stdout, and a decodable stdout under a non-zero status. -/
theorem c4_probe_error_taxonomy_witness :
    utf8Decode [0xFF] = none
    ∧ utf8Decode [0x78] = some "x"
    ∧ get_version (some ⟨[0xFF], 0⟩) = .error .probeDecodeError
    ∧ get_version (some ⟨[0x78], 7⟩) = .ok "x" :=
  ⟨rfl, rfl, c4_probe_error_taxonomy.2.1 [0xFF] 0 rfl,
   c4_probe_error_taxonomy.2.2 [0x78] 7 "x" rfl⟩

/-- C7: a successful builder run (toolchain succeeded and installed
into the given output directory) returns exactly the relative path
`bin/capnp.exe` on windows and exactly `bin/capnp` on linux and
macOS. -/
theorem c7_builder_install_layout (env : BuildEnv) (out_dir : String)
    (hCmake : env.cmakeResult = some out_dir) :
    (env.hostOs = .windows →
      (build_with_cmake env out_dir).2 = .ok (.locally "bin/capnp.exe"))
    ∧ ((env.hostOs = .linux ∨ env.hostOs = .macos) →
      (build_with_cmake env out_dir).2 = .ok (.locally "bin/capnp")) := by
  unfold build_with_cmake
  rw [hCmake]
  constructor
  · intro hOs; simp [hOs]
  · rintro (hOs | hOs) <;> simp [hOs]

/-- Witness for C7: the linux environment with a successful build. -/
theorem c7_witness :
    envLinuxLocalBuild.cmakeResult = some "/out"
    ∧ (envLinuxLocalBuild.hostOs = .windows →
        (build_with_cmake envLinuxLocalBuild "/out").2 = .ok (.locally "bin/capnp.exe"))
    ∧ ((envLinuxLocalBuild.hostOs = .linux ∨ envLinuxLocalBuild.hostOs = .macos) →
        (build_with_cmake envLinuxLocalBuild "/out").2 = .ok (.locally "bin/capnp")) :=
  ⟨rfl, (c7_builder_install_layout envLinuxLocalBuild "/out" rfl).1,
   (c7_builder_install_layout envLinuxLocalBuild "/out" rfl).2⟩

/-- C8: when the directory cmake actually installs into differs from
`$OUT_DIR`, the build fails with the install-prefix assertion and no
file is ever written: the emission step is not reached. -/
theorem c8_install_prefix_mismatch_no_artifact (env : BuildEnv) (out_dir dst e : String)
    (hOut : env.outDirVar = some out_dir)
    (hDisc : (discovery env.whichCapnp env.spawn).2.1 = .error e)
    (hDeny : env.denyNetFetch = false)
    (hCmake : env.cmakeResult = some dst)
    (hNe : out_dir ≠ dst) :
    (mainModel env).2 = .error .installPrefixMismatch
    ∧ writeEvents (mainModel env).1 = [] := by
  have hw := discovery_no_write env.whichCapnp env.spawn
  rcases hd : discovery env.whichCapnp env.spawn with ⟨opt, res, evs⟩
  rw [hd] at hDisc hw
  simp only at hDisc hw
  subst hDisc
  have hb : build_with_cmake env out_dir = ([.cmakeBuild], .error .installPrefixMismatch) := by
    unfold build_with_cmake
    rw [hCmake]
    simp [hNe]
  have hmain : mainModel env
      = ([Event.println "cargo:rerun-if-changed=capnproto"] ++ evs
           ++ [Event.println ("Couldn't find a local capnp: " ++ e),
               Event.println "building..."] ++ [Event.cmakeBuild],
         .error .installPrefixMismatch) := by
    unfold mainModel
    rw [hOut, hd]
    simp [hDeny, hb]
  rw [hmain]
  simp [writeEvents] at hw ⊢
  exact hw

/-- Witness for C8: cmake installs into `/elsewhere` while `$OUT_DIR`
is `/out`. -/
theorem c8_witness :
    (⟨some "/out", none, none, false, some "/elsewhere", .linux, false⟩
        : BuildEnv).cmakeResult = some "/elsewhere"
    ∧ "/out" ≠ "/elsewhere"
    ∧ ((mainModel ⟨some "/out", none, none, false, some "/elsewhere", .linux, false⟩).2
        = .error .installPrefixMismatch
      ∧ writeEvents
          (mainModel ⟨some "/out", none, none, false, some "/elsewhere", .linux, false⟩).1
        = []) :=
  ⟨rfl, by decide,
   c8_install_prefix_mismatch_no_artifact
     ⟨some "/out", none, none, false, some "/elsewhere", .linux, false⟩
     "/out" "/elsewhere" "could not find a system capnp binary"
     rfl rfl rfl rfl (by decide)⟩

/-- Counterexample to C3: on a freebsd host with no system capnp, the
build script runs to completion of the native build — the cmake
toolchain is spawned and println lines are emitted — before failing
with the run-time `panic!`; the failure is not a compile-time one, and
the builder is invoked before it. -/
theorem c3_unsupported_os_fails_at_run_time :
    (mainModel envFreebsdBuild).2
      = .error (.panicked "Sorry, capnp-import does not support your operating system.")
    ∧ Event.cmakeBuild ∈ (mainModel envFreebsdBuild).1
    ∧ Event.println "building..." ∈ (mainModel envFreebsdBuild).1 :=
  ⟨rfl, by decide, by decide⟩

/-- C3 amended: on an unsupported host OS the builder path fails with
the `panic!` at build-script run time — `cfg!` leaves the panic branch
as ordinary run-time code, so it fires only when `build_with_cmake`
executes, after the native build has already been configured and
run. -/
theorem c3_unsupported_os_runtime_panic (env : BuildEnv) (out_dir : String)
    (hOs : env.hostOs = .freebsd)
    (hCmake : env.cmakeResult = some out_dir) :
    (build_with_cmake env out_dir).2
      = .error (.panicked "Sorry, capnp-import does not support your operating system.")
    ∧ Event.cmakeBuild ∈ (build_with_cmake env out_dir).1 := by
  unfold build_with_cmake
  rw [hCmake, hOs]
  simp

/-- Witness for C3 amended: the freebsd environment. -/
theorem c3_runtime_panic_witness :
    envFreebsdBuild.hostOs = .freebsd
    ∧ envFreebsdBuild.cmakeResult = some "/out"
    ∧ ((build_with_cmake envFreebsdBuild "/out").2
        = .error (.panicked "Sorry, capnp-import does not support your operating system.")
      ∧ Event.cmakeBuild ∈ (build_with_cmake envFreebsdBuild "/out").1) :=
  ⟨rfl, rfl, c3_unsupported_os_runtime_panic envFreebsdBuild "/out" rfl rfl⟩

/-- Counterexample to C6: on a windows host whose system capnp lives at
`C:\tools\capnp.exe`, the emitted artifact's include path keeps the
backslashes of the stringified system location — only the output
directory component is rewritten. -/
theorem c6_system_path_keeps_backslashes :
    writeEvents (mainModel envWinSystem).1
      = [(emittedArtifactFile "C:\\out",
          artifactContents "C:\\out" (.onSystem "C:\\tools\\capnp.exe"))]
    ∧ '\\' ∈ (includePath "C:\\out" (.onSystem "C:\\tools\\capnp.exe")).data
    ∧ '\\' ∈ (artifactContents "C:\\out" (.onSystem "C:\\tools\\capnp.exe")).data :=
  ⟨rfl, by decide, by decide⟩

/-- C6 amended: the backslash rewrite applies to the output-directory
component only; the include path is backslash-free exactly when the
stringified acquired location is, which holds for the locally built
locations but not for an arbitrary system path. -/
theorem c6_include_path_backslashes (out_dir : String) (loc : CapnprotoAcquired)
    (hloc : '\\' ∉ loc.display.data) :
    '\\' ∉ (includePath out_dir loc).data := by
  intro hmem
  rw [includePath, string_data_append, string_data_append] at hmem
  rcases List.mem_append.mp hmem with h | h
  · rcases List.mem_append.mp h with h' | h'
    · rcases List.mem_map.mp h' with ⟨c, _, hc⟩
      by_cases hcb : c = '\\'
      · subst hcb; simp at hc
      · simp [hcb] at hc
    · simp at h'
  · exact hloc h

/-- Witness for C6 amended: the locally built windows binary path has
no backslashes, so the whole include path has none. -/
theorem c6_include_path_witness :
    '\\' ∉ (CapnprotoAcquired.locally "bin/capnp.exe").display.data
    ∧ '\\' ∉ (includePath "C:\\out" (.locally "bin/capnp.exe")).data :=
  ⟨by decide,
   c6_include_path_backslashes "C:\\out" (.locally "bin/capnp.exe") (by decide)⟩

/-- C1, evaluated at a successful build (linux, local build): exactly
one artifact is written, named `extract_bin.rs` under `$OUT_DIR`, and
its contents open with the declaration of `commandhandle`; but the
file the downstream consumer (`src/lib.rs`) textually includes is
`$OUT_DIR/binary_decision.rs`, which is not the file the core
emitted. -/
theorem c1_emitted_file_is_not_the_included_file :
    (mainModel envLinuxLocalBuild).2 = .ok ()
    ∧ writeEvents (mainModel envLinuxLocalBuild).1
        = [(emittedArtifactFile "/out", artifactContents "/out" (.locally "bin/capnp"))]
    ∧ (artifactContents "/out" (.locally "bin/capnp")).data.take 37
        = "\n#[allow(dead_code)]\nfn commandhandle".data
    ∧ emittedArtifactFile "/out" ≠ downstreamIncludedFile "/out" :=
  ⟨rfl, rfl, by decide, by decide⟩

end CapnpImport


